import Mathlib

/-
Verification of the viewport-synchronization component
(src/lib/components/map/bounds-updating-overlay.js).

The component observes pairs of prop snapshots and, on each transition,
either calls one map primitive (fitBounds / panTo), schedules one deferred
task via setTimeout, or does nothing.  The embedding below mirrors the
if/else-if ladder of updateBounds line by line.  JavaScript values that can
be null or undefined are modelled as Option; a thrown TypeError is modelled
as Except.error.  Coordinates are rationals (the claims never hinge on
float rounding).  The geometry helpers getLeafletItineraryBounds and
getLeafletLegBounds live in src/lib/util/itinerary.js, which is not part of
the provided sources; they are modelled from the spec where noted.
-/

namespace OtpBounds

/-- A latitude/longitude pair; equality is exact value equality. -/
structure Point where
  lat : Rat
  lon : Rat
deriving DecidableEq, Repr

/-- An axis-aligned, non-empty bounding rectangle over Points. -/
structure Rect where
  minLat : Rat
  maxLat : Rat
  minLon : Rat
  maxLon : Rat
deriving DecidableEq, Repr

/-- A Region is a rectangle or empty (a Leaflet bounds object with no
points extended into it is "invalid" but still truthy; `none` models it). -/
abbrev Region := Option Rect

/-- Degenerate rectangle holding a single point. -/
def rectOfPoint (p : Point) : Rect :=
  ⟨p.lat, p.lat, p.lon, p.lon⟩

/-- Grow a rectangle to include a point (Leaflet bounds.extend). -/
def extendRect (r : Rect) (p : Point) : Rect :=
  ⟨min r.minLat p.lat, max r.maxLat p.lat, min r.minLon p.lon, max r.maxLon p.lon⟩

/-- Extend a possibly-empty Region by a point; extending an empty bounds
initializes it to that point, exactly as Leaflet bounds.extend does. -/
def regionExtend (r : Region) (p : Point) : Region :=
  match r with
  | none => some (rectOfPoint p)
  | some rc => some (extendRect rc p)

/-- Modelled from the spec: coreUtils.map.isValidLatLng is an external
helper (out-of-scope library); the spec says places with non-finite or
out-of-range coordinates are excluded from Region aggregation.  Non-finite
values have no rational representative, so the range check remains. -/
def isValidLatLng (p : Point) : Bool :=
  decide (-90 ≤ p.lat) && decide (p.lat ≤ 90) &&
    decide (-180 ≤ p.lon) && decide (p.lon ≤ 180)

/-- A leg is an ordered sequence of steps, each carrying a point. -/
structure Leg where
  steps : List Point
deriving DecidableEq, Repr

/-- An itinerary is an ordered sequence of legs. -/
structure Itinerary where
  legs : List Leg
deriving DecidableEq, Repr

/-- Modelled from the spec: getLeafletLegBounds (src/lib/util/itinerary.js,
not under the provided sources) derives a Leg,s aggregate Region from its
steps, Points, excluding invalid coordinates; zero valid points give the
empty Region. -/
def getLeafletLegBounds (l : Leg) : Region :=
  l.steps.foldl (fun r p => if isValidLatLng p then regionExtend r p else r) none

/-- Modelled from the spec: getLeafletItineraryBounds
(src/lib/util/itinerary.js, not under the provided sources) derives the
itinerary,s aggregate Region from all legs. -/
def getLeafletItineraryBounds (it : Itinerary) : Region :=
  it.legs.foldl
    (fun r l =>
      l.steps.foldl (fun r2 p => if isValidLatLng p then regionExtend r2 p else r2) r)
    none

/-- The query part of the snapshot: origin, destination and intermediate
stops.  JS null and undefined are both modelled as `none`. -/
structure Query where
  fromLoc : Option Point
  toLoc : Option Point
  intermediatePlaces : Option (List (Option Point))
deriving DecidableEq, Repr

/-- The props consumed by updateBounds, as produced by mapStateToProps and
withLeaflet: popup location, the leaflet map handle (presence only), the
current query, active itinerary, active leg/step indices and the
ui_itineraryView url parameter. -/
structure Props where
  popupLocation : Option Point
  hasMap : Bool
  query : Option Query
  itinerary : Option Itinerary
  activeLeg : Option Nat
  activeStep : Option Nat
  itineraryView : Option String
deriving DecidableEq, Repr

/-- The empty props object: updateBounds(null, props) normalizes a null
oldProps to the empty object, whose every field reads as undefined. -/
def Props.empty : Props :=
  ⟨none, false, none, none, none, none, none⟩

/-- oldProps.query and oldProps.query.from collapsed, as in the source. -/
def qFrom (p : Props) : Option Point :=
  p.query.bind Query.fromLoc

/-- props.query and props.query.to collapsed, as in the source. -/
def qTo (p : Props) : Option Point :=
  p.query.bind Query.toLoc

/-- props.query and props.query.intermediatePlaces collapsed.  A present
empty list stays `some []` (an empty JS array is truthy). -/
def qInter (p : Props) : Option (List (Option Point)) :=
  p.query.bind Query.intermediatePlaces

/-- Padding around itinerary bounds and map bounds (line 26 of the source). -/
def BOUNDS_PADDING : Int × Int :=
  (30, 30)

/-- The options object passed to map.fitBounds, keeping the two distinct
keys that appear in the source: the Leaflet-recognized `padding` key and
the literal ITINERARY_MAP_PADDING key used in the deferred branch. -/
structure FitOptions where
  padding : Option (Int × Int)
  itineraryMapPaddingKey : Option (Int × Int)
deriving DecidableEq, Repr

/-- Options literal of rules 3, 4 and 5: padding BOUNDS_PADDING. -/
def stdFitOptions : FitOptions :=
  ⟨some BOUNDS_PADDING, none⟩

/-- Options literal of the deferred branch: the object written in the
source is not a padding option but one whose key is the (would-be constant
name) ITINERARY_MAP_PADDING, so the Leaflet padding option is absent. -/
def deferredFitOptions : FitOptions :=
  ⟨none, some BOUNDS_PADDING⟩

/-- Options literal of the intermediate-places rule: map.fitBounds(bounds)
with no options at all. -/
def noFitOptions : FitOptions :=
  ⟨none, none⟩

/-- One call to a map primitive. -/
inductive Effect where
  | fitBounds (region : Region) (opts : FitOptions)
  | panTo (p : Point)
  | invalidateSize (force : Bool)
deriving DecidableEq, Repr

/-- The data captured by the closure passed to setTimeout inside
_fitItineraryViewToMap: newProps.itinerary, newProps.activeLeg, and the
bounds argument (newItinBounds). -/
structure DeferredTask where
  itinerary : Option Itinerary
  activeLeg : Option Nat
  bounds : Option Region
deriving DecidableEq, Repr

/-- The outcome of one updateBounds invocation: the effects issued
immediately, plus an optional deferred task handed to setTimeout. -/
structure UpdateOutcome where
  effects : List Effect
  deferred : Option DeferredTask
deriving DecidableEq, Repr

/-- Utility to extend input bounds to include the list of places
(lines 16-23 of the source): null entries are filtered, entries failing
isValidLatLng are skipped, valid ones extend the bounds in order. -/
def extendBoundsByPlaces (bounds : Region) (places : List (Option Point)) : Region :=
  places.foldl
    (fun b op =>
      match op with
      | none => b
      | some p => if isValidLatLng p then regionExtend b p else b)
    bounds

/-- props.itinerary and getLeafletItineraryBounds(props.itinerary), the
computation of newItinBounds / oldItinBounds (lines 86 and 89).  The outer
Option is JS truthiness of the itinerary; the inner Region may itself be
empty while still being a truthy bounds object. -/
def newItinBoundsOf (p : Props) : Option Region :=
  p.itinerary.map getLeafletItineraryBounds

/-- The deferred task built by _fitItineraryViewToMap(newProps,
newItinBounds, map). -/
def mkDeferredTask (p : Props) : DeferredTask :=
  ⟨p.itinerary, p.activeLeg, newItinBoundsOf p⟩

/-- Run the body of the setTimeout callback of _fitItineraryViewToMap
(lines 52-68): first map.invalidateSize(true), then, if an itinerary
exists, fitBounds on the active leg (when activeLeg is set) or on the
captured itinerary bounds.  Returns the effects issued before any crash
together with a flag saying whether the callback threw (an out-of-range
activeLeg passes undefined into getLeafletLegBounds). -/
def runDeferred (t : DeferredTask) : List Effect × Bool :=
  match t.itinerary with
  | none => ([Effect.invalidateSize true], false)
  | some it =>
    match t.activeLeg with
    | some i =>
      match it.legs[i]? with
      | none => ([Effect.invalidateSize true], true)
      | some leg =>
        ([Effect.invalidateSize true,
          Effect.fitBounds (getLeafletLegBounds leg) deferredFitOptions], false)
    | none =>
      match t.bounds with
      | some b =>
        ([Effect.invalidateSize true, Effect.fitBounds b deferredFitOptions], false)
      | none => ([Effect.invalidateSize true], true)

/-- Guard of line 79: oldProps.popupLocation or newProps.popupLocation. -/
def popupGuard (old new : Props) : Bool :=
  old.popupLocation.isSome || new.popupLocation.isSome

/-- Guard of line 98: oldProps.itineraryView strictly differs from
newProps.itineraryView. -/
def itineraryViewChanged (old new : Props) : Bool :=
  decide (old.itineraryView ≠ new.itineraryView)

/-- Guard of lines 102-105: (!oldItinBounds and newItinBounds) or
(oldItinBounds and newItinBounds and not oldItinBounds.equals(newItinBounds)).
Bounds equality is corner value equality per the spec (Leaflet is an
external collaborator). -/
def itinBoundsChangedGuard (old new : Props) : Bool :=
  match newItinBoundsOf old, newItinBoundsOf new with
  | none, some _ => true
  | some a, some b => decide (a ≠ b)
  | _, _ => false

/-- Guard of lines 108-112: newProps.itinerary, activeLeg changed, and the
new activeLeg is non-null. -/
def activeLegGuard (old new : Props) : Bool :=
  new.itinerary.isSome && decide (new.activeLeg ≠ old.activeLeg) && new.activeLeg.isSome

/-- Guard of line 119: newFrom and newTo and (fromChanged or toChanged). -/
def rule5Guard (old new : Props) : Bool :=
  (qFrom new).isSome && (qTo new).isSome &&
    (decide (qFrom old ≠ qFrom new) || decide (qTo old ≠ qTo new))

/-- L.bounds([[from.lat, from.lon], [to.lat, to.lon]]) of lines 130-133:
the rectangle spanned by the two endpoints. -/
def rectOfEndpoints (f t : Point) : Rect :=
  ⟨min f.lat t.lat, max f.lat t.lat, min f.lon t.lon, max f.lon t.lon⟩

/-- Lines 156-165: pan to the active itinerary step if it became active.
The source indexes legs[activeLeg].steps[activeStep] without a range
check; an out-of-range index dereferences undefined and throws. -/
def rule8only (old new : Props) : Except String UpdateOutcome :=
  match new.itinerary, new.activeLeg, new.activeStep with
  | some it, some i, some s =>
    if new.activeStep ≠ old.activeStep then
      match it.legs[i]? with
      | none => Except.error "TypeError"
      | some leg =>
        match leg.steps[s]? with
        | none => Except.error "TypeError"
        | some st => Except.ok ⟨[Effect.panTo st], none⟩
    else Except.ok ⟨[], none⟩
  | _, _, _ => Except.ok ⟨[], none⟩

/-- Lines 150-153: if intermediate places are present and changed, extend
the map,s current displayed bounds by them and fit with no options. -/
def rule7chain (old new : Props) (mapBounds : Rect) : Except String UpdateOutcome :=
  match qInter new with
  | some places =>
    if qInter old ≠ some places then
      Except.ok
        ⟨[Effect.fitBounds (extendBoundsByPlaces (some mapBounds) places) noFitOptions],
          none⟩
    else rule8only old new
  | none => rule8only old new

/-- Line 146-147: else if newTo and toChanged, pan to newTo. -/
def rule6b (old new : Props) (mapBounds : Rect) : Except String UpdateOutcome :=
  match qTo new with
  | some t =>
    if qTo old ≠ some t then Except.ok ⟨[Effect.panTo t], none⟩
    else rule7chain old new mapBounds
  | none => rule7chain old new mapBounds

/-- Line 144-145: else if newFrom and fromChanged, pan to newFrom. -/
def rule6chain (old new : Props) (mapBounds : Rect) : Except String UpdateOutcome :=
  match qFrom new with
  | some f =>
    if qFrom old ≠ some f then Except.ok ⟨[Effect.panTo f], none⟩
    else rule6b old new mapBounds
  | none => rule6b old new mapBounds

/-- Lines 119-147 and onward: the endpoint rules.  When both endpoints are
present and one changed, fit to them (extended by intermediate places)
unless the platform is mobile, in which case the whole branch is skipped
and, because of the else-if ladder, nothing below it runs either. -/
def rules5to8 (old new : Props) (isMobile : Bool) (mapBounds : Rect) :
    Except String UpdateOutcome :=
  match qFrom new, qTo new with
  | some f, some t =>
    if qFrom old ≠ some f ∨ qTo old ≠ some t then
      if isMobile then Except.ok ⟨[], none⟩
      else
        Except.ok
          ⟨[Effect.fitBounds
              (extendBoundsByPlaces (some (rectOfEndpoints f t)) ((qInter new).getD []))
              stdFitOptions],
            none⟩
    else rule6chain old new mapBounds
  | _, _ => rule6chain old new mapBounds

/-- Lines 113-116: fit to the newly active leg.  legs[activeLeg] with an
out-of-range index passes undefined into getLeafletLegBounds, which
dereferences it and throws. -/
def activeLegFit (new : Props) : Except String UpdateOutcome :=
  match new.itinerary, new.activeLeg with
  | some it, some i =>
    match it.legs[i]? with
    | none => Except.error "TypeError"
    | some leg =>
      Except.ok ⟨[Effect.fitBounds (getLeafletLegBounds leg) stdFitOptions], none⟩
  | _, _ => Except.ok ⟨[], none⟩

/-- The transition classifier, lines 72-166 of the source, as the exact
if/else-if ladder: popup suppression, missing-map gate, view-mode change
(deferred task), itinerary-bounds change, active-leg change, then the
endpoint/intermediate/step rules.  mapBounds is the value map.getBounds()
would return, read only by the intermediate-places rule. -/
def updateBounds (old new : Props) (isMobile : Bool) (mapBounds : Rect) :
    Except String UpdateOutcome :=
  if popupGuard old new then Except.ok ⟨[], none⟩
  else if !new.hasMap then Except.ok ⟨[], none⟩
  else if itineraryViewChanged old new then
    Except.ok ⟨[], some (mkDeferredTask new)⟩
  else if itinBoundsChangedGuard old new then
    Except.ok
      ⟨[Effect.fitBounds ((newItinBoundsOf new).getD none) stdFitOptions], none⟩
  else if activeLegGuard old new then activeLegFit new
  else rules5to8 old new isMobile mapBounds

/-- componentWillUnmount (line 46) has an empty body: no timer handle is
stored anywhere in the component and clearTimeout is never called, so
teardown leaves every pending setTimeout task in place. -/
def componentWillUnmount (pending : List DeferredTask) : List DeferredTask :=
  pending

/-- setTimeout semantics as used by _fitItineraryViewToMap: the returned
handle is discarded, so scheduling only appends to the pending tasks and
cancels nothing. -/
def schedulePending (pending : List DeferredTask) (o : UpdateOutcome) :
    List DeferredTask :=
  match o.deferred with
  | some t => pending ++ [t]
  | none => pending

/-- One-leg, one-step sample itinerary used by the concrete transitions
in the theorems below. -/
def sampleItinerary : Itinerary :=
  ⟨[⟨[⟨47, -122⟩]⟩]⟩

/-- Snapshot whose ui_itineraryView just changed to LIST, with the sample
itinerary, a map handle and no popup. -/
def listViewProps : Props :=
  ⟨none, true, none, some sampleItinerary, none, none, some "LIST"⟩

/-- The same snapshot after a second view-mode change, to DETAIL. -/
def detailViewProps : Props :=
  ⟨none, true, none, some sampleItinerary, none, none, some "DETAIL"⟩

/-- Snapshot with the sample itinerary, active leg 0 and no active step. -/
def stepOldProps : Props :=
  ⟨none, true, none, some sampleItinerary, some 0, none, none⟩

/-- The same snapshot with activeStep set to 5, an index out of range for
the single-step leg of the sample itinerary. -/
def stepNewProps : Props :=
  ⟨none, true, none, some sampleItinerary, some 0, some 5, none⟩

/-- Snapshot whose newly appearing itinerary has no legs at all, so its
aggregate Region is empty while the bounds object is still truthy. -/
def emptyItinProps : Props :=
  ⟨none, true, none, some ⟨[]⟩, none, none, none⟩

/-- The view-mode guard never fires when both snapshots agree. -/
lemma itineraryViewChanged_self (p : Props) : itineraryViewChanged p p = false := by
  simp [itineraryViewChanged]

/-- The itinerary-bounds guard never fires when both snapshots agree. -/
lemma itinBoundsChangedGuard_self (p : Props) : itinBoundsChangedGuard p p = false := by
  unfold itinBoundsChangedGuard
  cases newItinBoundsOf p with
  | none => rfl
  | some a => simp

/-- The active-leg guard never fires when both snapshots agree. -/
lemma activeLegGuard_self (p : Props) : activeLegGuard p p = false := by
  simp [activeLegGuard]

/-- The step rule does nothing when both snapshots agree. -/
lemma rule8only_self (old : Props) (p : Props) (h1 : p.activeStep = old.activeStep) :
    rule8only old p = Except.ok ⟨[], none⟩ := by
  unfold rule8only
  rcases hI : p.itinerary with _ | it <;>
    rcases hL : p.activeLeg with _ | i <;>
    rcases hS : p.activeStep with _ | s <;>
    simp_all

/-- The intermediate-places rule does nothing when both snapshots agree. -/
lemma rule7chain_self (p : Props) (mb : Rect) :
    rule7chain p p mb = Except.ok ⟨[], none⟩ := by
  unfold rule7chain
  rcases h : qInter p with _ | pl <;> simp [h, rule8only_self]

/-- The pan-to-destination rule does nothing when both snapshots agree. -/
lemma rule6b_self (p : Props) (mb : Rect) : rule6b p p mb = Except.ok ⟨[], none⟩ := by
  unfold rule6b
  rcases h : qTo p with _ | t <;> simp [h, rule7chain_self]

/-- The pan-to-origin rule does nothing when both snapshots agree. -/
lemma rule6chain_self (p : Props) (mb : Rect) :
    rule6chain p p mb = Except.ok ⟨[], none⟩ := by
  unfold rule6chain
  rcases h : qFrom p with _ | f <;> simp [h, rule6b_self]

/-- The endpoint rules do nothing when both snapshots agree. -/
lemma rules5to8_self (p : Props) (m : Bool) (mb : Rect) :
    rules5to8 p p m mb = Except.ok ⟨[], none⟩ := by
  unfold rules5to8
  rcases hf : qFrom p with _ | f <;> rcases ht : qTo p with _ | t <;>
    simp [hf, ht, rule6chain_self]

/-- C1: for every pair of snapshots, if either snapshot has a non-null
popup location, updateBounds returns immediately: no map primitive is
called, no deferred command is scheduled, and no crash occurs, regardless
of any other change between the snapshots. -/
theorem popup_suppression_noop (old new : Props) (m : Bool) (mb : Rect)
    (h : old.popupLocation.isSome = true ∨ new.popupLocation.isSome = true) :
    updateBounds old new m mb = Except.ok ⟨[], none⟩ := by
  have hg : popupGuard old new = true := by
    unfold popupGuard
    rcases h with h | h <;> simp [h]
  unfold updateBounds
  simp [hg]

/-- Witness for C1 at a concrete pair of snapshots: the current snapshot
has a popup location and the itinerary changed, yet nothing happens. -/
theorem popup_suppression_noop_witness :
    (Props.mk (some ⟨47, -122⟩) true none (some ⟨[⟨[⟨1, 2⟩]⟩]⟩) none none
        none).popupLocation.isSome = true ∧
      updateBounds Props.empty
          (Props.mk (some ⟨47, -122⟩) true none (some ⟨[⟨[⟨1, 2⟩]⟩]⟩) none none none)
          false ⟨0, 1, 0, 1⟩ =
        Except.ok ⟨[], none⟩ :=
  ⟨by decide,
    popup_suppression_noop Props.empty
      (Props.mk (some ⟨47, -122⟩) true none (some ⟨[⟨[⟨1, 2⟩]⟩]⟩) none none none)
      false ⟨0, 1, 0, 1⟩ (Or.inr (by decide))⟩

/-- C5: classifying the transition from a snapshot to itself (no field
changed, value equality) always yields the no-op outcome: no map
primitive is called and nothing is scheduled. -/
theorem identity_transition_noop (s : Props) (m : Bool) (mb : Rect) :
    updateBounds s s m mb = Except.ok ⟨[], none⟩ := by
  unfold updateBounds
  cases hp : popupGuard s s with
  | true => simp [hp]
  | false =>
    cases hm : s.hasMap with
    | false => simp [hp, hm]
    | true =>
      simp [hp, hm, itineraryViewChanged_self, itinBoundsChangedGuard_self,
        activeLegGuard_self, rules5to8_self]

/-- C2: when neither snapshot has a popup, a map handle exists and the
view mode is unchanged, a change of itinerary Region (both present with
different Regions, or an itinerary appearing for the first time) makes the
classifier fit the current itinerary Region with the standard padding and
schedule nothing, regardless of any simultaneous endpoint change. -/
theorem itinerary_bounds_priority_fit (old new : Props) (m : Bool) (mb : Rect)
    (it : Itinerary)
    (hp : popupGuard old new = false) (hm : new.hasMap = true)
    (hv : old.itineraryView = new.itineraryView)
    (hni : new.itinerary = some it)
    (hdiff : old.itinerary = none ∨
      ∀ it0, old.itinerary = some it0 →
        getLeafletItineraryBounds it0 ≠ getLeafletItineraryBounds it) :
    updateBounds old new m mb =
      Except.ok
        ⟨[Effect.fitBounds (getLeafletItineraryBounds it) stdFitOptions], none⟩ := by
  have hvc : itineraryViewChanged old new = false := by
    simp [itineraryViewChanged, hv]
  have hg : itinBoundsChangedGuard old new = true := by
    unfold itinBoundsChangedGuard
    rcases ho : old.itinerary with _ | it0
    · simp [newItinBoundsOf, ho, hni]
    · rcases hdiff with h | h
      · simp [h] at ho
      · have hne := h it0 ho
        simp [newItinBoundsOf, ho, hni, hne]
  unfold updateBounds
  simp [hp, hm, hvc, hg, newItinBoundsOf, hni]

/-- Witness for C2: both itineraries present with different Regions, both
endpoints changed in the same transition, and the itinerary fit wins. -/
theorem itinerary_bounds_priority_fit_witness :
    qFrom (Props.mk none false (some ⟨some ⟨0, 0⟩, some ⟨1, 1⟩, none⟩)
        (some ⟨[⟨[⟨1, 1⟩]⟩]⟩) none none none) ≠
      qFrom (Props.mk none true (some ⟨some ⟨2, 2⟩, some ⟨3, 3⟩, none⟩)
        (some ⟨[⟨[⟨5, 5⟩]⟩]⟩) none none none) ∧
    updateBounds
        (Props.mk none false (some ⟨some ⟨0, 0⟩, some ⟨1, 1⟩, none⟩)
          (some ⟨[⟨[⟨1, 1⟩]⟩]⟩) none none none)
        (Props.mk none true (some ⟨some ⟨2, 2⟩, some ⟨3, 3⟩, none⟩)
          (some ⟨[⟨[⟨5, 5⟩]⟩]⟩) none none none) false ⟨0, 1, 0, 1⟩ =
      Except.ok
        ⟨[Effect.fitBounds (getLeafletItineraryBounds ⟨[⟨[⟨5, 5⟩]⟩]⟩) stdFitOptions],
          none⟩ :=
  ⟨by decide,
    itinerary_bounds_priority_fit
      (Props.mk none false (some ⟨some ⟨0, 0⟩, some ⟨1, 1⟩, none⟩)
        (some ⟨[⟨[⟨1, 1⟩]⟩]⟩) none none none)
      (Props.mk none true (some ⟨some ⟨2, 2⟩, some ⟨3, 3⟩, none⟩)
        (some ⟨[⟨[⟨5, 5⟩]⟩]⟩) none none none)
      false ⟨0, 1, 0, 1⟩ ⟨[⟨[⟨5, 5⟩]⟩]⟩ (by decide) (by decide) (by decide) (by decide)
      (Or.inr (by intro it0 h; cases h; decide))⟩

/-- C9: when the previous snapshot has an itinerary and the current one
has none (and popup suppression and the view-mode rule do not apply), the
itinerary-bounds guard is false — the disappearance of an itinerary never
refits the viewport — and evaluation falls through to the endpoint, leg
and step rules. -/
theorem itinerary_disappearance_falls_through (old new : Props) (m : Bool) (mb : Rect)
    (it0 : Itinerary)
    (hp : popupGuard old new = false) (hm : new.hasMap = true)
    (hv : old.itineraryView = new.itineraryView)
    (hold : old.itinerary = some it0) (hnew : new.itinerary = none) :
    itinBoundsChangedGuard old new = false ∧
      updateBounds old new m mb = rules5to8 old new m mb := by
  have hg : itinBoundsChangedGuard old new = false := by
    unfold itinBoundsChangedGuard
    simp [newItinBoundsOf, hold, hnew]
  have hlg : activeLegGuard old new = false := by
    simp [activeLegGuard, hnew]
  refine ⟨hg, ?_⟩
  have hvc : itineraryViewChanged old new = false := by
    simp [itineraryViewChanged, hv]
  unfold updateBounds
  simp [hp, hm, hvc, hg, hlg]

/-- Witness for C9: the itinerary disappears while the origin is set for
the first time; rule 3 does not fire and the fall-through pans to the new
origin. -/
theorem itinerary_disappearance_falls_through_witness :
    (itinBoundsChangedGuard
        (Props.mk none false none (some ⟨[⟨[⟨1, 1⟩]⟩]⟩) none none none)
        (Props.mk none true (some ⟨some ⟨2, 2⟩, none, none⟩) none none none none) =
          false ∧
      updateBounds (Props.mk none false none (some ⟨[⟨[⟨1, 1⟩]⟩]⟩) none none none)
          (Props.mk none true (some ⟨some ⟨2, 2⟩, none, none⟩) none none none none)
          false ⟨0, 1, 0, 1⟩ =
        rules5to8 (Props.mk none false none (some ⟨[⟨[⟨1, 1⟩]⟩]⟩) none none none)
          (Props.mk none true (some ⟨some ⟨2, 2⟩, none, none⟩) none none none none)
          false ⟨0, 1, 0, 1⟩) ∧
    rules5to8 (Props.mk none false none (some ⟨[⟨[⟨1, 1⟩]⟩]⟩) none none none)
        (Props.mk none true (some ⟨some ⟨2, 2⟩, none, none⟩) none none none none)
        false ⟨0, 1, 0, 1⟩ =
      Except.ok ⟨[Effect.panTo ⟨2, 2⟩], none⟩ :=
  ⟨itinerary_disappearance_falls_through
      (Props.mk none false none (some ⟨[⟨[⟨1, 1⟩]⟩]⟩) none none none)
      (Props.mk none true (some ⟨some ⟨2, 2⟩, none, none⟩) none none none none)
      false ⟨0, 1, 0, 1⟩ ⟨[⟨[⟨1, 1⟩]⟩]⟩ (by decide) (by decide) (by decide) (by decide)
      (by decide),
    by rfl⟩

/-- Every deferred task starts by forcing a container-resize notification:
the first effect of the setTimeout callback is invalidateSize(true). -/
lemma runDeferred_head (t : DeferredTask) :
    (runDeferred t).1.head? = some (Effect.invalidateSize true) := by
  unfold runDeferred
  rcases t with ⟨it, al, b⟩
  rcases it with _ | it
  · rfl
  · rcases al with _ | i
    · rcases b with _ | br <;> rfl
    · rcases h : it.legs[i]? with _ | leg <;> simp [h]

/-- C10: whenever the view mode differs between snapshots (with no popup
and a map handle present), updateBounds schedules exactly the deferred
task, and that task, when it fires, always calls invalidateSize(true)
first — even when no itinerary exists and no fit follows. -/
theorem view_mode_deferred_invalidates (old new : Props) (m : Bool) (mb : Rect)
    (hp : popupGuard old new = false) (hm : new.hasMap = true)
    (hv : old.itineraryView ≠ new.itineraryView) :
    updateBounds old new m mb = Except.ok ⟨[], some (mkDeferredTask new)⟩ ∧
      (runDeferred (mkDeferredTask new)).1.head? =
        some (Effect.invalidateSize true) := by
  have hvc : itineraryViewChanged old new = true := by
    simp [itineraryViewChanged, hv]
  refine ⟨?_, runDeferred_head _⟩
  unfold updateBounds
  simp [hp, hm, hvc]

/-- Witness for C10 at a snapshot with no itinerary: the scheduled task
still calls invalidateSize(true) (and nothing else), so the
itinerary-absent branch is not a pure no-op on the map handle. -/
theorem view_mode_deferred_invalidates_witness :
    (updateBounds Props.empty (Props.mk none true none none none none (some "LIST"))
        false ⟨0, 1, 0, 1⟩ =
      Except.ok
        ⟨[], some (mkDeferredTask (Props.mk none true none none none none (some "LIST")))⟩ ∧
      (runDeferred (mkDeferredTask (Props.mk none true none none none none (some "LIST")))).1.head? =
        some (Effect.invalidateSize true)) ∧
    (runDeferred (mkDeferredTask (Props.mk none true none none none none (some "LIST")))).1 =
      [Effect.invalidateSize true] :=
  ⟨view_mode_deferred_invalidates Props.empty
      (Props.mk none true none none none none (some "LIST")) false ⟨0, 1, 0, 1⟩
      (by decide) (by decide) (by decide),
    by decide⟩

/-- C7: on a mobile (constrained-input) platform, when rules 1-4 do not
match and both endpoints are present in the current snapshot and both
changed, the classifier does nothing at all: the endpoint-fit body is
skipped and, the ladder being else-if, no later rule runs either. -/
theorem mobile_suppresses_endpoint_fit (old new : Props) (mb : Rect) (f t : Point)
    (hp : popupGuard old new = false) (hm : new.hasMap = true)
    (hv : old.itineraryView = new.itineraryView)
    (h3 : itinBoundsChangedGuard old new = false)
    (h4 : activeLegGuard old new = false)
    (hf : qFrom new = some f) (ht : qTo new = some t)
    (hfc : qFrom old ≠ some f) (htc : qTo old ≠ some t) :
    updateBounds old new true mb = Except.ok ⟨[], none⟩ := by
  have hvc : itineraryViewChanged old new = false := by
    simp [itineraryViewChanged, hv]
  unfold updateBounds
  simp only [hp, hm, hvc, h3, h4, Bool.not_true, Bool.false_eq_true, if_false,
    if_true, Bool.true_eq_false]
  unfold rules5to8
  simp [hf, ht, hfc]

/-- Witness for C7: both endpoints set for the first time on mobile, and
nothing happens. -/
theorem mobile_suppresses_endpoint_fit_witness :
    qFrom (Props.mk none true (some ⟨some ⟨1, 1⟩, some ⟨2, 2⟩, none⟩) none none none
        none) = some ⟨1, 1⟩ ∧
      updateBounds Props.empty
          (Props.mk none true (some ⟨some ⟨1, 1⟩, some ⟨2, 2⟩, none⟩) none none none none)
          true ⟨0, 1, 0, 1⟩ =
        Except.ok ⟨[], none⟩ :=
  ⟨by decide,
    mobile_suppresses_endpoint_fit Props.empty
      (Props.mk none true (some ⟨some ⟨1, 1⟩, some ⟨2, 2⟩, none⟩) none none none none)
      ⟨0, 1, 0, 1⟩ ⟨1, 1⟩ ⟨2, 2⟩ (by decide) (by decide) (by decide) (by decide)
      (by decide) (by decide) (by decide) (by decide) (by decide)⟩

/-- C8: when rules 1-5 do not match and exactly one endpoint changed to a
non-null point — only from, or only to — the classifier pans to that
endpoint. -/
theorem single_endpoint_pan (old new : Props) (m : Bool) (mb : Rect) (p : Point)
    (hp : popupGuard old new = false) (hm : new.hasMap = true)
    (hv : old.itineraryView = new.itineraryView)
    (h3 : itinBoundsChangedGuard old new = false)
    (h4 : activeLegGuard old new = false)
    (h5 : rule5Guard old new = false)
    (hcase :
      (qFrom new = some p ∧ qFrom old ≠ some p ∧ qTo old = qTo new) ∨
        (qTo new = some p ∧ qTo old ≠ some p ∧ qFrom old = qFrom new)) :
    updateBounds old new m mb = Except.ok ⟨[Effect.panTo p], none⟩ := by
  have hvc : itineraryViewChanged old new = false := by
    simp [itineraryViewChanged, hv]
  unfold updateBounds
  simp only [hp, hm, hvc, h3, h4, Bool.not_true, Bool.false_eq_true, if_false,
    if_true, Bool.true_eq_false]
  rcases hcase with ⟨hf, hfc, _⟩ | ⟨ht, htc, hfeq⟩
  · rcases hq : qTo new with _ | t
    · unfold rules5to8
      simp only [hf, hq]
      unfold rule6chain
      simp [hf, hfc]
    · exfalso
      have hg : rule5Guard old new = true := by
        simp [rule5Guard, hf, hq, hfc]
      rw [hg] at h5
      exact Bool.noConfusion h5
  · rcases hq : qFrom new with _ | f
    · unfold rules5to8
      simp only [ht, hq]
      unfold rule6chain
      simp only [hq]
      unfold rule6b
      simp [ht, htc]
    · exfalso
      have hg : rule5Guard old new = true := by
        simp only [rule5Guard, ht, hq, Option.isSome_some, Bool.true_and]
        simp only [Bool.or_eq_true, decide_eq_true_eq]
        exact Or.inr htc
      rw [hg] at h5
      exact Bool.noConfusion h5

/-- Witness for C8, scenario 1 of the spec: previous snapshot all null,
current snapshot has only from = (47.6, -122.3), and the classifier pans
there. -/
theorem single_endpoint_pan_witness :
    qFrom (Props.mk none true (some ⟨some ⟨47.6, -122.3⟩, none, none⟩) none none
        none none) = some ⟨47.6, -122.3⟩ ∧
      updateBounds Props.empty
          (Props.mk none true (some ⟨some ⟨47.6, -122.3⟩, none, none⟩) none none none none)
          false ⟨0, 1, 0, 1⟩ =
        Except.ok ⟨[Effect.panTo ⟨47.6, -122.3⟩], none⟩ :=
  ⟨rfl,
    single_endpoint_pan Props.empty
      (Props.mk none true (some ⟨some ⟨47.6, -122.3⟩, none, none⟩) none none none none)
      false ⟨0, 1, 0, 1⟩ ⟨47.6, -122.3⟩ rfl rfl rfl rfl rfl rfl
      (Or.inl ⟨rfl, by simp [qFrom, Props.empty], rfl⟩)⟩

/-- C3 is false of the source: the deferred fit of a view-mode change is a
fire-and-forget setTimeout.  The handle is discarded, componentWillUnmount
has an empty body, so the task scheduled before teardown is still pending
afterwards and fires against the map handle; and a second view-mode change
appends a second pending task without cancelling the first, so both fire. -/
theorem deferred_fit_never_cancelled :
    updateBounds Props.empty listViewProps false ⟨0, 1, 0, 1⟩ =
        Except.ok ⟨[], some (mkDeferredTask listViewProps)⟩ ∧
      componentWillUnmount [mkDeferredTask listViewProps] =
        [mkDeferredTask listViewProps] ∧
      (runDeferred (mkDeferredTask listViewProps)).1 ≠ [] ∧
      schedulePending [mkDeferredTask listViewProps]
          ⟨[], some (mkDeferredTask detailViewProps)⟩ =
        [mkDeferredTask listViewProps, mkDeferredTask detailViewProps] :=
  ⟨rfl, rfl, by decide, rfl⟩

/-- C6 is false of the source: the deferred fit passes an options object
whose key is the literal name ITINERARY_MAP_PADDING, not the padding
option, so the deferred fit of a view-mode change carries no padding,
while the immediate fits of rules 3-5 do pass padding [30, 30]. -/
theorem deferred_fit_loses_padding :
    updateBounds Props.empty listViewProps false ⟨0, 1, 0, 1⟩ =
        Except.ok ⟨[], some (mkDeferredTask listViewProps)⟩ ∧
      (runDeferred (mkDeferredTask listViewProps)).1 =
        [Effect.invalidateSize true,
          Effect.fitBounds (getLeafletItineraryBounds sampleItinerary)
            deferredFitOptions] ∧
      deferredFitOptions.padding = none ∧
      stdFitOptions.padding = some (30, 30) :=
  ⟨rfl, rfl, rfl, rfl⟩

/-- C4 is partly false of the source: a transition that merely sets
activeStep to an index out of range for the current itinerary makes
updateBounds dereference an undefined step and throw, and a newly
appearing itinerary with no valid points makes rule 3 call the fit
primitive with an empty Region. -/
theorem out_of_range_step_crashes :
    updateBounds stepOldProps stepNewProps false ⟨0, 1, 0, 1⟩ =
        Except.error "TypeError" ∧
      updateBounds Props.empty emptyItinProps false ⟨0, 1, 0, 1⟩ =
        Except.ok ⟨[Effect.fitBounds none stdFitOptions], none⟩ :=
  ⟨rfl, rfl⟩

/-- C4 as amended: null places and places with invalid coordinates are
excluded from Region aggregation — a list with no valid place leaves the
input bounds unchanged (so such places never move the Region). -/
theorem invalid_places_never_aggregated (b : Region) (ps : List (Option Point))
    (h : ∀ p : Point, some p ∈ ps → isValidLatLng p = false) :
    extendBoundsByPlaces b ps = b := by
  induction ps generalizing b with
  | nil => rfl
  | cons op rest ih =>
    cases op with
    | none =>
      have hr := ih b (fun q hq => h q (List.mem_cons_of_mem _ hq))
      simpa [extendBoundsByPlaces] using hr
    | some p =>
      have hv : isValidLatLng p = false := h p (List.mem_cons_self _ _)
      have hr := ih b (fun q hq => h q (List.mem_cons_of_mem _ hq))
      simpa [extendBoundsByPlaces, hv] using hr

/-- Witness for the amended C4: a null place and a place with latitude 100
(out of range) extend nothing. -/
theorem invalid_places_never_aggregated_witness :
    (∀ p : Point, some p ∈ [none, some (⟨100, 200⟩ : Point)] →
        isValidLatLng p = false) ∧
      extendBoundsByPlaces (some ⟨0, 0, 0, 0⟩) [none, some ⟨100, 200⟩] =
        some ⟨0, 0, 0, 0⟩ := by
  have h : ∀ p : Point, some p ∈ [none, some (⟨100, 200⟩ : Point)] →
      isValidLatLng p = false := by
    intro p hp
    simp only [List.mem_cons, List.not_mem_nil, or_false] at hp
    rcases hp with hp | hp
    · exact absurd hp (by simp)
    · injection hp with hp2
      subst hp2
      decide
  exact ⟨h, invalid_places_never_aggregated _ _ h⟩

end OtpBounds
